import Mathlib

/-!
Shallow embedding of the a2aserver Vue frontend client:
the Solana wallet helper (`solana-wallet.ts`), the axios request
interceptor (`api.ts`), the WebSocket service (`websocket.ts`) and the
chat store's WebSocket event handlers.  Machine numbers are modelled as
`Nat`/`Int`; JavaScript `NaN` outcomes of `parseInt` are modelled by
`Option Int` with `none` standing for `NaN`; JavaScript string
truthiness (the empty string is falsy) is modelled explicitly.
-/

namespace A2A

/-- JS string truthiness on an optional string: `undefined`/`null` and the
empty string are falsy; a non-empty string is returned unchanged. -/
def strTruthy : Option String → Option String
  | some s => if s = "" then none else some s
  | none => none

/-- Digits-to-number accumulator used by the `parseInt` model. -/
def natOfDigits (l : List Char) : Nat :=
  l.foldl (fun a c => 10 * a + (c.toNat - 48)) 0

/-- Model of JavaScript `parseInt(s, 10)`: skip leading whitespace, accept an
optional sign, read the maximal run of leading decimal digits; `none`
stands for `NaN` (no digits found). -/
def jsParseInt (s : String) : Option Int :=
  let t := s.data.dropWhile (fun c => c = ' ' ∨ c = '\t' ∨ c = '\n' ∨ c = '\r')
  match t with
  | '-' :: r =>
      let d := r.takeWhile Char.isDigit
      if d.isEmpty then none else some (-(natOfDigits d : Int))
  | '+' :: r =>
      let d := r.takeWhile Char.isDigit
      if d.isEmpty then none else some ((natOfDigits d : Int))
  | _ =>
      let d := t.takeWhile Char.isDigit
      if d.isEmpty then none else some ((natOfDigits d : Int))

/-- The wallet record persisted in `localStorage` under the key
`phantomWallet` (fields may be individually missing in a parsed JSON
object).  A wholly missing or unparsable item is `none` at use sites. -/
structure StoredWallet where
  address : Option String
  nonce : Option String
  signature : Option String
  connectedAt : Option Nat
deriving DecidableEq, Repr

/-- Source `getSignatureInfo` result: the expiry nonce (a decimal millisecond
timestamp as a string) and the base64 signature. -/
structure SignatureInfo where
  nonce : String
  signature : String
deriving DecidableEq, Repr

/-- Source `solana-wallet.ts` `isWalletConnected`: truthiness of the stored item. -/
def isWalletConnected (store : Option StoredWallet) : Bool :=
  store.isSome

/-- Source `solana-wallet.ts` `getWalletAddress`: the stored `address` field (may be
`undefined`), `null` when no wallet item is stored. -/
def getWalletAddress (store : Option StoredWallet) : Option String :=
  store.bind (fun w => w.address)

/-- Source `solana-wallet.ts` `getSignatureInfo`: returns the nonce/signature pair
when both fields are truthy, otherwise `null`. -/
def getSignatureInfo (store : Option StoredWallet) : Option SignatureInfo :=
  match store with
  | none => none
  | some w =>
      match strTruthy w.nonce, strTruthy w.signature with
      | some n, some s => some ⟨n, s⟩
      | _, _ => none

/-- Source `solana-wallet.ts` `isSignatureExpired`: `Date.now() >= parseInt(nonce)`.
When `parseInt` yields `NaN` the JS comparison `now >= NaN` is `false`,
so the signature is reported as not expired. -/
def isSignatureExpired (store : Option StoredWallet) (now : Nat) : Bool :=
  match getSignatureInfo store with
  | none => true
  | some si =>
      match jsParseInt si.nonce with
      | none => false
      | some n => decide ((now : Int) ≥ n)

/-- Source `solana-wallet.ts` `getSignatureExpiryTime`: `null` (outer `none`) when
there is no signature info, otherwise `parseInt(nonce)` where the inner
`none` stands for `NaN`. -/
def getSignatureExpiryTime (store : Option StoredWallet) : Option (Option Int) :=
  match getSignatureInfo store with
  | none => none
  | some si => some (jsParseInt si.nonce)

/-- Source `solana-wallet.ts` `getRemainingValidTime`: `0` when the expiry time is
falsy (`null`, `NaN` or `0`), otherwise `Math.max(0, expiry - now)`. -/
def getRemainingValidTime (store : Option StoredWallet) (now : Nat) : Int :=
  match getSignatureExpiryTime store with
  | none => 0
  | some none => 0
  | some (some e) => if e = 0 then 0 else max 0 (e - (now : Int))

/-- Source `ApiKeyDialog.vue` `needsSignature`: the re-sign prompt is shown only
when a wallet is connected and `isSignatureExpired()` holds. -/
def needsSignature (store : Option StoredWallet) (now : Nat) : Bool :=
  isWalletConnected store && isSignatureExpired store now

/-- The authentication proof triple carried by both the HTTP header path and
the realtime handshake URL. -/
structure AuthTriple where
  publicKey : String
  nonce : String
  signature : String
deriving DecidableEq, Repr

/-- Source `api.ts` request interceptor for a signature-requiring API request:
reject when the wallet address is falsy, reject when there is no
signature info, otherwise attach the triple as the headers
`X-Solana-PublicKey`, `X-Solana-Nonce`, `X-Solana-Signature`. -/
def httpAuthHeaders (store : Option StoredWallet) : Except String AuthTriple :=
  match strTruthy (getWalletAddress store) with
  | none => Except.error "wallet not connected"
  | some addr =>
      match getSignatureInfo store with
      | none => Except.error "valid signature required"
      | some si => Except.ok ⟨addr, si.nonce, si.signature⟩

/-- Source `websocket.ts` `connect` auth-URL construction: the same checks as the
interceptor (falsy wallet address rejects the connect promise; missing
signature info diverts to the refresh branch instead of a handshake);
the triple is appended to the upgrade URL as the query parameters
`publicKey`, `nonce`, `signature` (each `encodeURIComponent`-encoded in
transit, decoding back to these values). -/
def wsAuthQuery (store : Option StoredWallet) : Except String AuthTriple :=
  match strTruthy (getWalletAddress store) with
  | none => Except.error "No wallet address available"
  | some addr =>
      match getSignatureInfo store with
      | none => Except.error "refresh first"
      | some si => Except.ok ⟨addr, si.nonce, si.signature⟩

/-- JS `s.includes(pat)` for a non-empty pattern, via `splitOn`: the pattern
occurs in `s` iff splitting on it yields more than one piece. -/
def strContains (s pat : String) : Bool :=
  decide (1 < (s.splitOn pat).length)

/-- The `expiryDuration` argument of `connectAndSign` is `number | string`;
a string argument is replaced by the 7-day default. -/
inductive ExpiryArg
  | num (n : Nat)
  | strArg (s : String)
deriving DecidableEq, Repr

/-- Source `EXPIRY_PRESETS.DAY_7` (milliseconds). -/
def EXPIRY_DAY_7 : Nat := 7 * 24 * 60 * 60 * 1000

/-- Source `connectAndSign` `actualExpiry`: a string argument falls back to the
7-day preset. -/
def actualExpiryOf : ExpiryArg → Nat
  | ExpiryArg.num n => n
  | ExpiryArg.strArg _ => EXPIRY_DAY_7

/-- Behaviour of the Phantom provider environment at `connectAndSign` time:
no provider detected, a successful connect-and-sign interaction (yielding
an address and a base64 signature), or an interaction that throws with
message `emsg` (the `String(error)` rendering). -/
inductive ProviderBehavior
  | absent
  | interactsOk (address : String) (sigBase64 : String)
  | interactsErr (emsg : String)
deriving DecidableEq, Repr

/-- The value resolved by `connectAndSign`. -/
structure SignResult where
  success : Bool
  address : Option String
  nonce : Option String
  signature : Option String
  error : Option String
deriving DecidableEq, Repr

/-- Result of `connectAndSign` together with the `localStorage` wallet item
after the call. -/
structure ConnectAndSignOut where
  result : SignResult
  store : Option StoredWallet
deriving DecidableEq, Repr

/-- Source `solana-wallet.ts` `connectAndSign`: the nonce is the future expiry
timestamp `now + actualExpiry` rendered as a decimal string.  With no
provider detected the debug fallback fabricates an address
`DEBUG_<rand>` and a signature `DEBUG_SIGNATURE_<rand>` and still
persists the wallet record; with a provider, a successful interaction
persists the real pair, and a thrown interaction error resolves
`success: false` (categorised by its message) without touching storage.
The module-level random suffixes are the `debugRand1`/`debugRand2`
parameters. -/
def connectAndSign (provider : ProviderBehavior) (debugRand1 debugRand2 : String)
    (expiryDuration : ExpiryArg) (now : Nat) (store : Option StoredWallet) :
    ConnectAndSignOut :=
  let nonce := Nat.repr (now + actualExpiryOf expiryDuration)
  match provider with
  | ProviderBehavior.absent =>
      let address := "DEBUG_" ++ debugRand1
      let signature := "DEBUG_SIGNATURE_" ++ debugRand2
      let wi : StoredWallet := ⟨some address, some nonce, some signature, some now⟩
      ⟨⟨true, some address, some nonce, some signature, none⟩, some wi⟩
  | ProviderBehavior.interactsOk address sig =>
      let wi : StoredWallet := ⟨some address, some nonce, some sig, some now⟩
      ⟨⟨true, some address, some nonce, some sig, none⟩, some wi⟩
  | ProviderBehavior.interactsErr emsg =>
      let lower := emsg.toLower
      if strContains lower "permission" || strContains lower "not allowed" then
        ⟨⟨false, none, none, none, some "wallet permission error"⟩, store⟩
      else if strContains lower "user rejected" then
        ⟨⟨false, none, none, none, some "user rejected the connection"⟩, store⟩
      else
        ⟨⟨false, none, none, none, some ("wallet connection error: " ++ emsg)⟩, store⟩

/-- Source `solana-wallet.ts` `refreshSignatureIfNeeded`: when the remaining valid
time is below `minimumValidTime` it re-signs via `connectAndSign`
(keeping at least the original duration, floored at 7 days, with the JS
falsiness of a `0`/`NaN`/`null` expiry or a `0` `connectedAt` modelled
explicitly) and resolves the `success` flag; otherwise it resolves
`true`.  Every branch resolves: the function catches all errors and
never rejects. -/
def refreshSignatureIfNeeded (provider : ProviderBehavior) (r1 r2 : String)
    (minimumValidTime : Int) (now : Nat) (store : Option StoredWallet) :
    Bool × Option StoredWallet :=
  let remainingTime := getRemainingValidTime store now
  if remainingTime < minimumValidTime then
    let duration : Nat :=
      match getSignatureExpiryTime store with
      | none => EXPIRY_DAY_7
      | some none => EXPIRY_DAY_7
      | some (some e) =>
          if e = 0 then EXPIRY_DAY_7
          else
            let connectedTime : Int :=
              match store with
              | some w =>
                  match w.connectedAt with
                  | some c => if c = 0 then (now : Int) else (c : Int)
                  | none => (now : Int)
              | none => (now : Int)
            (max (EXPIRY_DAY_7 : Int) (e - connectedTime)).toNat
    let out := connectAndSign provider r1 r2 (ExpiryArg.num duration) now store
    (out.result.success, out.store)
  else
    (true, store)

/-- Ready-state of the client's single `WebSocket` object. -/
inductive SockState
  | connecting
  | opened
deriving DecidableEq, Repr

/-- State of the `WebSocketService` singleton (`websocket.ts`): the socket,
the reconnect attempt counter, the two timers (`reconnectTimeout`
holding its scheduled delay, `pingInterval` holding its period), the
in-flight connection promise (by id) with the presence of its stored
`resolve`/`reject` callbacks, whether a `refreshSignatureIfNeeded`
call issued by `connect` is still pending, and `staleClosers`: the
number of socket objects the service has closed or orphaned
(`disconnect()`'s `socket.close()`, `connect()`'s replacement of a
stale socket) whose `onclose` callback — attached to the socket object,
not gated on `this.socket` — has not yet fired. -/
structure WSState where
  socket : Option SockState
  reconnectAttempts : Nat
  reconnectTimeout : Option Nat
  pingInterval : Option Nat
  connectionPromise : Option Nat
  hasResolve : Bool
  hasReject : Bool
  pendingRefresh : Bool
  nextPromiseId : Nat
  staleClosers : Nat
deriving DecidableEq, Repr

/-- Source `websocket.ts` `maxReconnectAttempts = 5`. -/
def maxReconnectAttempts : Nat := 5

/-- Externally observable actions of a `WebSocketService` step. -/
inductive Effect
  | scheduledReconnect (delayMs : Nat)
  | rejectedPromise (message : String)
  | resolvedPromise
  | openedSocket (auth : AuthTriple)
  | sentPing
deriving DecidableEq, Repr

/-- What a `connect()` call hands back to its caller: the already-open
socket, the promise of the attempt already in flight, or a freshly
created connection promise. -/
inductive ConnectReturn
  | alreadyOpen
  | joinedInFlight (pid : Nat)
  | started (pid : Nat)
deriving DecidableEq, Repr

/-- The freshly initialised `WebSocketService` fields. -/
def initWS : WSState :=
  ⟨none, 0, none, none, none, false, false, false, 0, 0⟩

/-- Source `websocket.ts` `connect()`: return the socket when already `OPEN`;
return the in-flight promise when one exists; otherwise create a new
promise and (a) reject synchronously when the wallet address is falsy,
(b) divert to the signature-refresh branch when signature info is
missing, or (c) discard any stale socket and open a new socket on the
auth URL carrying the proof triple. -/
def connectFn (s : WSState) (store : Option StoredWallet) :
    WSState × List Effect × ConnectReturn :=
  if s.socket = some SockState.opened then (s, [], ConnectReturn.alreadyOpen)
  else
    match s.connectionPromise with
    | some p => (s, [], ConnectReturn.joinedInFlight p)
    | none =>
        let pid := s.nextPromiseId
        let s1 := { s with connectionPromise := some pid, hasResolve := true,
                           hasReject := true, nextPromiseId := pid + 1 }
        match strTruthy (getWalletAddress store) with
        | none =>
            ({ s1 with connectionPromise := none, hasResolve := false,
                       hasReject := false },
             [Effect.rejectedPromise "No wallet address available"],
             ConnectReturn.started pid)
        | some addr =>
            match getSignatureInfo store with
            | none =>
                ({ s1 with pendingRefresh := true }, [], ConnectReturn.started pid)
            | some si =>
                ({ s1 with socket := some SockState.connecting,
                           staleClosers :=
                             s1.staleClosers + (if s1.socket.isSome then 1 else 0) },
                 [Effect.openedSocket ⟨addr, si.nonce, si.signature⟩],
                 ConnectReturn.started pid)

/-- Source `websocket.ts` `disconnect()`: clear the ping interval, close and drop
the socket, clear the reconnect timer.  The `socket.close()` call leaves
the closed socket object's `onclose` still due to fire, so a present
socket becomes a stale closer. -/
def disconnectFn (s : WSState) : WSState :=
  { s with pingInterval := none, socket := none, reconnectTimeout := none,
           staleClosers := s.staleClosers + (if s.socket.isSome then 1 else 0) }

/-- Source `websocket.ts` `attemptReconnect()`: increment the attempt counter
first, then schedule a reconnect after
`min(1000 * 2 ^ attempts, 30000)` ms, replacing any pending timer. -/
def attemptReconnect (s : WSState) : WSState × List Effect :=
  let attempts := s.reconnectAttempts + 1
  let delay := min (1000 * 2 ^ attempts) 30000
  ({ s with reconnectAttempts := attempts, reconnectTimeout := some delay },
   [Effect.scheduledReconnect delay])

/-- Source `socket.onopen`: reset the attempt counter, start the 30-second ping
interval, resolve the pending connection promise (its `finally` then
clears the stored promise and callbacks). -/
def onOpen (s : WSState) : WSState × List Effect :=
  let base := { s with socket := some SockState.opened, reconnectAttempts := 0,
                       pingInterval := some 30000 }
  if s.hasResolve then
    ({ base with hasResolve := false, hasReject := false, connectionPromise := none },
     [Effect.resolvedPromise])
  else (base, [])

/-- Source `socket.onclose`: clear the ping interval and drop the socket; while
attempts remain, schedule a reconnect, otherwise reject the pending
connection promise with the maximum-attempts error. -/
def onClose (s : WSState) : WSState × List Effect :=
  let s0 := { s with pingInterval := none, socket := none }
  if s.reconnectAttempts < maxReconnectAttempts then
    attemptReconnect s0
  else if s.hasReject then
    ({ s0 with hasReject := false, hasResolve := false, connectionPromise := none },
     [Effect.rejectedPromise "Maximum reconnection attempts reached"])
  else (s0, [])

/-- Delivery of the `onclose` of an already-discarded socket (one counted in
`staleClosers`): the handler is attached to the socket object and runs
ungated — the same `socket.onclose` body as for a live close.  Its
`this.socket = null` assignment orphans whatever socket the service
currently holds (that socket object, too, will fire its own `onclose`
when it eventually closes, so it joins the stale closers). -/
def onStaleClose (s : WSState) : WSState × List Effect :=
  onClose
    { s with staleClosers :=
        s.staleClosers - 1 + (if s.socket.isSome then 1 else 0) }

/-- Source `socket.onerror`: reject the pending connection promise when its
`reject` callback is still stored (its `finally` then clears the
promise state); timers and socket are untouched. -/
def onError (s : WSState) : WSState × List Effect :=
  if s.hasReject then
    ({ s with hasReject := false, hasResolve := false, connectionPromise := none },
     [Effect.rejectedPromise "WebSocket error"])
  else (s, [])

/-- Resolution of the `refreshSignatureIfNeeded()` promise inside
`connect()` (it resolves a boolean whether or not the refresh
succeeded): `disconnect()`, drop the stored promise and call `connect()`
again. -/
def onRefreshResolved (s : WSState) (store : Option StoredWallet) :
    WSState × List Effect :=
  if s.pendingRefresh then
    let s1 := { disconnectFn s with connectionPromise := none, pendingRefresh := false }
    let r := connectFn s1 store
    (r.1, r.2.1)
  else (s, [])

/-- Rejection of the `refreshSignatureIfNeeded()` promise inside
`connect()`: reject the connection promise with a
`Failed to get signature` error and drop the stored promise. -/
def onRefreshRejected (s : WSState) (emsg : String) : WSState × List Effect :=
  if s.pendingRefresh then
    if s.hasReject then
      ({ s with pendingRefresh := false, hasReject := false, hasResolve := false,
                connectionPromise := none },
       [Effect.rejectedPromise ("Failed to get signature: " ++ emsg)])
    else ({ s with pendingRefresh := false, connectionPromise := none }, [])
  else (s, [])

/-- The reconnect `setTimeout` callback: clear the timer handle and call
`connect()` (a failure is only logged). -/
def onReconnectTimer (s : WSState) (store : Option StoredWallet) :
    WSState × List Effect :=
  let r := connectFn { s with reconnectTimeout := none } store
  (r.1, r.2.1)

/-- The ping `setInterval` callback: `sendPing` sends a `ping` frame when
the socket is open, otherwise `send` merely logs an error. -/
def onPingTimer (s : WSState) : WSState × List Effect :=
  if s.socket = some SockState.opened then (s, [Effect.sentPing]) else (s, [])

/-- Events driving the `WebSocketService`: API calls from the application
(`connect`, `disconnect`), the socket callbacks of the current socket,
the late `onclose` of a socket the service has already discarded
(`staleCloseEvt`, firing while a stale closer is outstanding),
settlement of a pending refresh, and timer firings (which only occur
while the corresponding timer is scheduled). -/
inductive WsEvent
  | connectCall (store : Option StoredWallet)
  | openEvt
  | closeEvt
  | staleCloseEvt
  | errorEvt
  | refreshResolved (store : Option StoredWallet)
  | refreshRejected (emsg : String)
  | reconnectTimerFire (store : Option StoredWallet)
  | pingTimerFire
  | disconnectCall

/-- One atomic event step of the service; events whose trigger is not
present (no socket, no stale closer outstanding, no pending refresh,
timer not scheduled) do not fire. -/
def step (s : WSState) (e : WsEvent) : WSState × List Effect :=
  match e with
  | WsEvent.connectCall store =>
      let r := connectFn s store
      (r.1, r.2.1)
  | WsEvent.openEvt =>
      if s.socket = some SockState.connecting then onOpen s else (s, [])
  | WsEvent.closeEvt => if s.socket.isSome then onClose s else (s, [])
  | WsEvent.staleCloseEvt => if 0 < s.staleClosers then onStaleClose s else (s, [])
  | WsEvent.errorEvt => if s.socket.isSome then onError s else (s, [])
  | WsEvent.refreshResolved store => onRefreshResolved s store
  | WsEvent.refreshRejected m => onRefreshRejected s m
  | WsEvent.reconnectTimerFire store =>
      if s.reconnectTimeout.isSome then onReconnectTimer s store else (s, [])
  | WsEvent.pingTimerFire =>
      if s.pingInterval.isSome then onPingTimer s else (s, [])
  | WsEvent.disconnectCall => (disconnectFn s, [])

/-- Run the service from a state through a list of events. -/
def runWS (s : WSState) (es : List WsEvent) : WSState :=
  es.foldl (fun t e => (step t e).1) s

/-- States of the service reachable from initialisation. -/
def ReachableWS (s : WSState) : Prop :=
  ∃ es : List WsEvent, runWS initWS es = s

/-- Source `metadata` object carried by chat and history messages. -/
structure MsgMeta where
  message_id : Option String
  conversation_id : Option String
deriving DecidableEq, Repr

/-- One `parts` entry of a chat message. -/
structure MsgPart where
  type : String
  text : Option String
deriving DecidableEq, Repr

/-- A message held in the chat component's `messages` list. -/
structure ChatMessage where
  id : Option String
  role : String
  parts : List MsgPart
  metadata : Option MsgMeta
deriving DecidableEq, Repr

/-- A task's `status.message` is either a plain string or an object that may
carry `metadata`. -/
inductive StatusMessage
  | strMsg (s : String)
  | objMsg (metadata : Option MsgMeta)
deriving DecidableEq, Repr

/-- A task's `status` record. -/
structure TaskStatus where
  state : String
  message : Option StatusMessage
deriving DecidableEq, Repr

/-- One entry of a task's `history`. -/
structure HistoryMessage where
  role : String
  parts : List MsgPart
  metadata : Option MsgMeta
deriving DecidableEq, Repr

/-- One entry of a task's `artifacts`. -/
structure Artifact where
  name : String
  parts : List MsgPart
deriving DecidableEq, Repr

/-- A task held in the chat component's `tasks` list. -/
structure Task where
  id : String
  sessionId : String
  status : Option TaskStatus
  artifacts : Option (List Artifact)
  history : Option (List HistoryMessage)
  messageId : Option String
deriving DecidableEq, Repr

/-- The task payload of a `task_update` event (its `status` is always
present per the event interface). -/
structure EventTask where
  id : String
  sessionId : String
  status : TaskStatus
  artifacts : Option (List Artifact)
  history : Option (List HistoryMessage)
deriving DecidableEq, Repr

/-- A `task_update` WebSocket event. -/
structure TaskUpdateEvent where
  conversation_id : String
  message_id : Option String
  task : EventTask
deriving DecidableEq, Repr

/-- The `message` payload of a `new_message` event. -/
structure EventMessageContent where
  type : String
  text : Option String
deriving DecidableEq, Repr

/-- The message carried by a `new_message` event. -/
structure EventMessage where
  id : String
  role : String
  content : List EventMessageContent
deriving DecidableEq, Repr

/-- A `new_message` WebSocket event. -/
structure NewMessageEvent where
  conversation_id : String
  message : EventMessage
deriving DecidableEq, Repr

/-- The slice of the chat component's state touched by the WebSocket
listeners: current conversation, messages, tasks, the message-id → task
map and the message-id → got-a-response map (a JS object whose missing
entries are falsy). -/
structure ChatState where
  currentConversationId : Option String
  messages : List ChatMessage
  tasks : List Task
  messageTasks : String → Option Task
  messageResponses : String → Bool

/-- The message id embedded in a task's status message, when the status and
its message are truthy, the message is an object, and its
`metadata.message_id` is truthy (`updateMessageTaskMapping`, first
check). -/
def statusMessageId (t : Task) : Option String :=
  match t.status with
  | some st =>
      match st.message with
      | some (StatusMessage.objMsg (some md)) => strTruthy md.message_id
      | _ => none
  | none => none

/-- The truthy message id embedded in one history entry. -/
def historyMessageId (h : HistoryMessage) : Option String :=
  match h.metadata with
  | some md => strTruthy md.message_id
  | none => none

/-- Point update of the `messageTasks` JS object. -/
def mapInsert (m : String → Option Task) (k : String) (t : Task) :
    String → Option Task :=
  fun x => if x = k then some t else m x

/-- Loop body of `updateMessageTaskMapping` for one task: an id embedded in
the status message wins (and skips the history scan via `continue`),
otherwise every truthy `message_id` found in the task's history entries
is mapped to the task. -/
def taskMapStep (m : String → Option Task) (t : Task) : String → Option Task :=
  match statusMessageId t with
  | some mid => mapInsert m mid t
  | none =>
      match t.history with
      | some hist =>
          hist.foldl
            (fun m2 h =>
              match historyMessageId h with
              | some mid => mapInsert m2 mid t
              | none => m2)
            m
      | none => m

/-- Source `updateMessageTaskMapping`: rebuild the message-id → task map from
scratch by folding `taskMapStep` over all tasks. -/
def updateMessageTaskMapping (tasks : List Task) : String → Option Task :=
  tasks.foldl taskMapStep (fun _ => none)

/-- The ids a task's own payload embeds, as scanned by
`updateMessageTaskMapping`: the status-message id when present
(history skipped), otherwise the truthy history ids. -/
def embeddedIds (t : Task) : List String :=
  match statusMessageId t with
  | some mid => [mid]
  | none =>
      match t.history with
      | some hist => hist.filterMap historyMessageId
      | none => []

/-- The `task_update` handler's merge of an incoming task into an existing
entry: replace `status`, keep old `artifacts`/`history` when the event
carries none (JS `||`), and overwrite `messageId` when the event carries
a truthy `message_id`. -/
def mergeTask (old : Task) (e : TaskUpdateEvent) : Task :=
  { old with
    status := some e.task.status,
    artifacts := e.task.artifacts.or old.artifacts,
    history := e.task.history.or old.history,
    messageId :=
      match strTruthy e.message_id with
      | some mid => some mid
      | none => old.messageId }

/-- The `task_update` handler's fresh task for an unseen task id. -/
def newTaskOfEvent (e : TaskUpdateEvent) : Task :=
  { id := e.task.id, sessionId := e.task.sessionId,
    status := some e.task.status, artifacts := e.task.artifacts,
    history := e.task.history, messageId := strTruthy e.message_id }

/-- Index at which the handler's upserted task ends up: the found index, or
the end of the list for a fresh task. -/
def upsertIndex (s : ChatState) (e : TaskUpdateEvent) : Nat :=
  match s.tasks.findIdx? (fun t => t.id = e.task.id) with
  | some i => i
  | none => s.tasks.length

/-- Source `setupWebSocketListeners` `task_update` handler: ignore foreign
conversations; update the existing task in place or append a fresh one;
then, when the event carries a truthy `message_id`, bind that id
directly to the upserted task, and otherwise rebuild the whole map with
`updateMessageTaskMapping`. -/
def handleTaskUpdate (s : ChatState) (e : TaskUpdateEvent) : ChatState :=
  if some e.conversation_id ≠ s.currentConversationId then s
  else
    let existingIdx := s.tasks.findIdx? (fun t => t.id = e.task.id)
    let tasks2 :=
      match existingIdx with
      | some i =>
          match s.tasks[i]? with
          | some old => s.tasks.set i (mergeTask old e)
          | none => s.tasks
      | none => s.tasks ++ [newTaskOfEvent e]
    let idx :=
      match existingIdx with
      | some i => i
      | none => tasks2.length - 1
    match strTruthy e.message_id with
    | some mid =>
        match tasks2[idx]? with
        | some t =>
            { s with tasks := tasks2, messageTasks := mapInsert s.messageTasks mid t }
        | none => { s with tasks := tasks2 }
    | none =>
        { s with tasks := tasks2, messageTasks := updateMessageTaskMapping tasks2 }

/-- The truthy `metadata.message_id` of a chat message. -/
def chatMessageId (m : ChatMessage) : Option String :=
  match m.metadata with
  | some md => strTruthy md.message_id
  | none => none

/-- Source `updateAgentResponseReceived`'s backward scan: the `message_id` of the
most recent message with role `user` and a truthy metadata id. -/
def lastUserMessageId (msgs : List ChatMessage) : Option String :=
  (msgs.reverse.find? (fun m => m.role = "user" && (chatMessageId m).isSome)).bind
    chatMessageId

/-- Source `updateAgentResponseReceived`: for a non-user message, mark the most
recent user message carrying a `message_id` as having received a
response. -/
def updateAgentResponseReceived (msgs : List ChatMessage)
    (resp : String → Bool) (m : ChatMessage) : String → Bool :=
  if m.role ≠ "user" then
    match lastUserMessageId msgs with
    | some mid => fun k => if k = mid then true else resp k
    | none => resp
  else resp

/-- The `new_message` handler's conversion of the event payload into a chat
message (`c.text || ''`). -/
def convertNewMessage (e : NewMessageEvent) : ChatMessage :=
  { id := some e.message.id, role := e.message.role,
    parts := e.message.content.map
      (fun c => ⟨c.type, some ((strTruthy c.text).getD "")⟩),
    metadata := some ⟨some e.message.id, some e.conversation_id⟩ }

/-- Source `setupWebSocketListeners` `new_message` handler: ignore foreign
conversations and already-present message ids; otherwise append the
converted message and run `updateAgentResponseReceived` over the
extended list. -/
def handleNewMessage (s : ChatState) (e : NewMessageEvent) : ChatState :=
  if some e.conversation_id ≠ s.currentConversationId then s
  else if s.messages.any
      (fun m =>
        match m.metadata with
        | some md => md.message_id = some e.message.id
        | none => false) then s
  else
    let nm := convertNewMessage e
    let msgs2 := s.messages ++ [nm]
    { s with messages := msgs2,
             messageResponses := updateAgentResponseReceived msgs2 s.messageResponses nm }

/-- A wallet store carrying a truthy address and signature info, used to
drive concrete connection traces. -/
def walletOK : Option StoredWallet :=
  some ⟨some "addr", some "9999", some "sig", some 0⟩

/-- A concrete event trace: five failed connection attempts (each error
settles the pending promise, each close consumes one reconnect attempt),
then the timer-driven sixth `connect()`, leaving the service at the
attempt cap with a fresh pending promise. -/
def capTrace : List WsEvent :=
  [WsEvent.connectCall walletOK, WsEvent.errorEvt, WsEvent.closeEvt,
   WsEvent.reconnectTimerFire walletOK, WsEvent.errorEvt, WsEvent.closeEvt,
   WsEvent.reconnectTimerFire walletOK, WsEvent.errorEvt, WsEvent.closeEvt,
   WsEvent.reconnectTimerFire walletOK, WsEvent.errorEvt, WsEvent.closeEvt,
   WsEvent.reconnectTimerFire walletOK, WsEvent.errorEvt, WsEvent.closeEvt,
   WsEvent.reconnectTimerFire walletOK]

/-- Fixture: an earlier user message `A` (still awaiting a response in the
scenarios below). -/
def msgUserA : ChatMessage := ⟨some "A", "user", [], some ⟨some "A", some "c"⟩⟩

/-- Fixture: a later user message `B`. -/
def msgUserB : ChatMessage := ⟨some "B", "user", [], some ⟨some "B", some "c"⟩⟩

/-- Fixture: chat state in which the most recent user message `B` has
already received a response while the earlier `A` is still awaiting
one. -/
def awaitingState : ChatState :=
  ⟨some "c", [msgUserA, msgUserB], [], fun _ => none, fun k => k == "B"⟩

/-- Fixture: chat state with a single awaiting user message `A`. -/
def awaitingSingle : ChatState :=
  ⟨some "c", [msgUserA], [], fun _ => none, fun _ => false⟩

/-- Fixture: an incoming agent message event for conversation `c`. -/
def agentEvt : NewMessageEvent := ⟨"c", ⟨"X", "agent", []⟩⟩

/-! Helper lemmas. -/

theorem toDigitsCore_len_ge (b : Nat) :
    ∀ (f n : Nat) (l : List Char), l.length ≤ (Nat.toDigitsCore b f n l).length := by
  intro f
  induction f with
  | zero => intro n l; simp [Nat.toDigitsCore]
  | succ f ih =>
      intro n l
      simp only [Nat.toDigitsCore]
      split
      · simp
      · exact le_trans (Nat.le_succ l.length) (ih (n / b) (Nat.digitChar (n % b) :: l))

theorem natRepr_ne_empty (n : Nat) : Nat.repr n ≠ "" := by
  have hlen : 1 ≤ (Nat.toDigits 10 n).length := by
    simp only [Nat.toDigits, Nat.toDigitsCore]
    split
    · simp
    · exact le_trans (by simp) (toDigitsCore_len_ge 10 n (n / 10) [Nat.digitChar (n % 10)])
  intro h
  have hdata : (Nat.toDigits 10 n) = [] := by
    have := congrArg String.data h
    simpa [Nat.repr, List.asString] using this
  rw [hdata] at hlen
  simp at hlen

theorem strTruthy_repr (n : Nat) : strTruthy (some (Nat.repr n)) = some (Nat.repr n) := by
  simp [strTruthy, natRepr_ne_empty n]

theorem strTruthy_append_ne (a b : String) (h : a ≠ "") :
    strTruthy (some (a ++ b)) = some (a ++ b) := by
  have hne : a ++ b ≠ "" := by
    intro hab
    have : (a ++ b).length = 0 := by rw [hab]; rfl
    rw [String.length_append] at this
    have ha : a.length = 0 := by omega
    have hdat : a.data = [] := List.length_eq_zero.mp ha
    exact h (String.ext (by rw [hdat]))
  simp [strTruthy, hne]

/-- C9: for a stored proof whose nonce string does not parse to a number
(`parseInt` yields `NaN`), `isSignatureExpired()` returns `false` (the JS
comparison `now >= NaN` is `false`) while `getRemainingValidTime()`
returns `0` for the same proof, so the `isSignatureExpired`-gated re-sign
path (`needsSignature`) is never triggered by a malformed expiry. -/
theorem malformed_nonce_not_expired (store : Option StoredWallet)
    (si : SignatureInfo) (now : Nat) (hsi : getSignatureInfo store = some si)
    (hnan : jsParseInt si.nonce = none) :
    isSignatureExpired store now = false
    ∧ getRemainingValidTime store now = 0
    ∧ needsSignature store now = false := by
  have hexp : isSignatureExpired store now = false := by
    simp [isSignatureExpired, hsi, hnan]
  have hrem : getRemainingValidTime store now = 0 := by
    simp [getRemainingValidTime, getSignatureExpiryTime, hsi, hnan]
  refine ⟨hexp, hrem, ?_⟩
  simp [needsSignature, hexp]

/-- Witness for C9 at a concrete malformed-nonce store. -/
theorem malformed_nonce_not_expired_witness :
    getSignatureInfo (some ⟨some "addr", some "oops", some "sig", some 0⟩) =
      some ⟨"oops", "sig"⟩
    ∧ jsParseInt "oops" = none
    ∧ (isSignatureExpired (some ⟨some "addr", some "oops", some "sig", some 0⟩) 123 = false
        ∧ getRemainingValidTime (some ⟨some "addr", some "oops", some "sig", some 0⟩) 123 = 0
        ∧ needsSignature (some ⟨some "addr", some "oops", some "sig", some 0⟩) 123 = false) :=
  ⟨by decide, by decide,
    malformed_nonce_not_expired (some ⟨some "addr", some "oops", some "sig", some 0⟩)
      ⟨"oops", "sig"⟩ 123 (by decide) (by decide)⟩

/-- C10: with no Phantom provider detected, `connectAndSign` succeeds with a
fabricated `DEBUG_`-prefixed address and `DEBUG_SIGNATURE_`-prefixed
signature, persists this proof to `localStorage` exactly as a real one,
and every subsequent authenticated request (HTTP headers and realtime
handshake query alike) carries the fabricated triple. -/
theorem debug_wallet_fallback (r1 r2 : String) (earg : ExpiryArg) (now : Nat)
    (store : Option StoredWallet) :
    (connectAndSign ProviderBehavior.absent r1 r2 earg now store).result.success = true
    ∧ (connectAndSign ProviderBehavior.absent r1 r2 earg now store).result.address =
        some ("DEBUG_" ++ r1)
    ∧ (connectAndSign ProviderBehavior.absent r1 r2 earg now store).result.signature =
        some ("DEBUG_SIGNATURE_" ++ r2)
    ∧ (connectAndSign ProviderBehavior.absent r1 r2 earg now store).store =
        some ⟨some ("DEBUG_" ++ r1), some (Nat.repr (now + actualExpiryOf earg)),
              some ("DEBUG_SIGNATURE_" ++ r2), some now⟩
    ∧ httpAuthHeaders (connectAndSign ProviderBehavior.absent r1 r2 earg now store).store =
        Except.ok ⟨"DEBUG_" ++ r1, Nat.repr (now + actualExpiryOf earg),
                   "DEBUG_SIGNATURE_" ++ r2⟩
    ∧ wsAuthQuery (connectAndSign ProviderBehavior.absent r1 r2 earg now store).store =
        Except.ok ⟨"DEBUG_" ++ r1, Nat.repr (now + actualExpiryOf earg),
                   "DEBUG_SIGNATURE_" ++ r2⟩ := by
  have h1 : strTruthy (some ("DEBUG_" ++ r1)) = some ("DEBUG_" ++ r1) :=
    strTruthy_append_ne "DEBUG_" r1 (by decide)
  have h2 : strTruthy (some ("DEBUG_SIGNATURE_" ++ r2)) = some ("DEBUG_SIGNATURE_" ++ r2) :=
    strTruthy_append_ne "DEBUG_SIGNATURE_" r2 (by decide)
  have h3 := strTruthy_repr (now + actualExpiryOf earg)
  refine ⟨rfl, rfl, rfl, rfl, ?_, ?_⟩
  · simp [httpAuthHeaders, getWalletAddress, getSignatureInfo, connectAndSign, h1, h2, h3]
  · simp [wsAuthQuery, getWalletAddress, getSignatureInfo, connectAndSign, h1, h2, h3]

/-- C7: the HTTP request path (headers `X-Solana-PublicKey`,
`X-Solana-Nonce`, `X-Solana-Signature`) and the realtime handshake path
(query parameters `publicKey`, `nonce`, `signature`) extract the same
proof triple from the same stored wallet: one yields a triple exactly
when the other does, and the handshake opened by a fresh `connect()`
carries exactly that triple on its URL. -/
theorem auth_triple_refinement (store : Option StoredWallet) (t : AuthTriple) :
    (httpAuthHeaders store = Except.ok t ↔ wsAuthQuery store = Except.ok t)
    ∧ (wsAuthQuery store = Except.ok t ↔
        (connectFn initWS store).2.1 = [Effect.openedSocket t]) := by
  unfold httpAuthHeaders wsAuthQuery connectFn initWS
  cases hw : strTruthy (getWalletAddress store) with
  | none => simp
  | some addr =>
      cases hs : getSignatureInfo store with
      | none => simp
      | some si => simp

/-- C3: `connect()` is idempotent while a connection attempt is in flight or
the socket is open: with an open socket every caller gets the existing
socket back and the service state is unchanged; with an in-flight
attempt every caller gets the same pending promise back and the state is
unchanged — in particular no second socket is opened. -/
theorem connect_idempotent (s : WSState) (store : Option StoredWallet) (p : Nat) :
    (s.socket = some SockState.opened →
      connectFn s store = (s, [], ConnectReturn.alreadyOpen))
    ∧ (s.socket ≠ some SockState.opened → s.connectionPromise = some p →
      connectFn s store = (s, [], ConnectReturn.joinedInFlight p)) := by
  constructor
  · intro h
    simp [connectFn, h]
  · intro h hp
    simp [connectFn, h, hp]

/-- Witness for C3: an open-socket state and an in-flight state, both left
untouched by `connect()`. -/
theorem connect_idempotent_witness :
    connectFn ⟨some SockState.opened, 0, none, none, none, false, false, false, 1, 0⟩ none =
      (⟨some SockState.opened, 0, none, none, none, false, false, false, 1, 0⟩, [],
        ConnectReturn.alreadyOpen)
    ∧ connectFn ⟨some SockState.connecting, 0, none, none, some 7, true, true, false, 8, 0⟩ none =
      (⟨some SockState.connecting, 0, none, none, some 7, true, true, false, 8, 0⟩, [],
        ConnectReturn.joinedInFlight 7) :=
  ⟨(connect_idempotent _ none 7).1 (by decide),
   (connect_idempotent _ none 7).2 (by decide) (by decide)⟩

/-- C2 counterexample: a stored proof that is present but expired
(`nonce = "1000"`, now = 2000, so `isSignatureExpired` holds) does NOT
make `connect()` refresh first — the call goes straight to the socket
handshake carrying the expired triple, refuting the claim that an
expired proof is re-signed before the handshake. -/
theorem connect_refresh_claim_false :
    isSignatureExpired (some ⟨some "addr", some "1000", some "sig", some 0⟩) 2000 = true
    ∧ (connectFn initWS (some ⟨some "addr", some "1000", some "sig", some 0⟩)).2.1 =
        [Effect.openedSocket ⟨"addr", "1000", "sig"⟩]
    ∧ (connectFn initWS (some ⟨some "addr", some "1000", some "sig", some 0⟩)).1.pendingRefresh
        = false := by
  decide

/-- C2 (amended): only an absent proof triggers the refresh: when the wallet
address is truthy but the signature info is missing, `connect()` first
starts the signature refresh and opens no socket in that call; a
rejected refresh promise rejects `connect()` with a
`Failed to get signature` error, while a refresh that merely resolves
(even unsuccessfully) makes `connect()` retry — with the proof still
absent, the retry re-enters the refresh branch without rejecting. -/
theorem connect_refresh_on_absent (s : WSState) (store : Option StoredWallet)
    (addr : String)
    (hnop : s.socket ≠ some SockState.opened) (hnp : s.connectionPromise = none)
    (haddr : strTruthy (getWalletAddress store) = some addr)
    (hsig : getSignatureInfo store = none) :
    (connectFn s store).1.pendingRefresh = true
    ∧ (connectFn s store).2.1 = []
    ∧ (connectFn s store).1.socket = s.socket
    ∧ (∀ t : WSState, ∀ m : String, t.pendingRefresh = true → t.hasReject = true →
        (onRefreshRejected t m).2 =
          [Effect.rejectedPromise ("Failed to get signature: " ++ m)])
    ∧ (∀ t : WSState, t.pendingRefresh = true →
        (onRefreshResolved t store).1.pendingRefresh = true
        ∧ (onRefreshResolved t store).2 = []) := by
  refine ⟨?_, ?_, ?_, ?_, ?_⟩
  · simp [connectFn, hnop, hnp, haddr, hsig]
  · simp [connectFn, hnop, hnp, haddr, hsig]
  · simp [connectFn, hnop, hnp, haddr, hsig]
  · intro t m hpr hrj
    simp [onRefreshRejected, hpr, hrj]
  · intro t hpr
    constructor
    · simp [onRefreshResolved, hpr, connectFn, disconnectFn, haddr, hsig]
    · simp [onRefreshResolved, hpr, connectFn, disconnectFn, haddr, hsig]

/-- Witness for C2 (amended) at a concrete signature-less store. -/
theorem connect_refresh_on_absent_witness :
    (connectFn initWS (some ⟨some "addr", none, none, none⟩)).1.pendingRefresh = true
    ∧ (connectFn initWS (some ⟨some "addr", none, none, none⟩)).2.1 = []
    ∧ (connectFn initWS (some ⟨some "addr", none, none, none⟩)).1.socket = initWS.socket :=
  ⟨(connect_refresh_on_absent initWS (some ⟨some "addr", none, none, none⟩) "addr"
      (by decide) (by decide) (by decide) (by decide)).1,
   (connect_refresh_on_absent initWS (some ⟨some "addr", none, none, none⟩) "addr"
      (by decide) (by decide) (by decide) (by decide)).2.1,
   (connect_refresh_on_absent initWS (some ⟨some "addr", none, none, none⟩) "addr"
      (by decide) (by decide) (by decide) (by decide)).2.2.1⟩

/-- C1 counterexample: from a freshly opened connection (attempt counter 0,
reset by the open), the very first close schedules the reconnect after
2000 ms, not after `min(1000 * 2^0, 30000) = 1000` ms as the claim's
`k`-th-reconnect formula demands: `attemptReconnect` increments the
counter before computing the delay. -/
theorem reconnect_backoff_claim_false :
    (step (runWS initWS
        [WsEvent.connectCall (some ⟨some "addr", some "9999", some "sig", some 0⟩),
         WsEvent.openEvt]) WsEvent.closeEvt).2 =
      [Effect.scheduledReconnect 2000]
    ∧ min (1000 * 2 ^ 0) 30000 = 1000
    ∧ (2000 : Nat) ≠ 1000 := by
  decide

/-- C1 (amended): with `k` closes already consumed since the last reset
(attempt counter = `k`, `k` below the cap), the next close schedules the
`k`-th reconnect (`k` from 0) after `min(1000 * 2^(k+1), 30000)` ms —
so three consecutive closes yield 2000 ms, 4000 ms, 8000 ms — and the
attempt counter is reset to 0 on every successful open. -/
theorem reconnect_backoff (s : WSState) (k : Nat) (hsock : s.socket.isSome = true)
    (hk : s.reconnectAttempts = k) (hlt : k < maxReconnectAttempts) :
    (step s WsEvent.closeEvt).2 =
      [Effect.scheduledReconnect (min (1000 * 2 ^ (k + 1)) 30000)]
    ∧ (step s WsEvent.closeEvt).1.reconnectAttempts = k + 1
    ∧ (step s WsEvent.closeEvt).1.reconnectTimeout =
        some (min (1000 * 2 ^ (k + 1)) 30000)
    ∧ (∀ t : WSState, t.socket = some SockState.connecting →
        (step t WsEvent.openEvt).1.reconnectAttempts = 0) := by
  have hcl : k < maxReconnectAttempts := hlt
  refine ⟨?_, ?_, ?_, ?_⟩
  · simp [step, hsock, onClose, attemptReconnect, hk, hcl]
  · simp [step, hsock, onClose, attemptReconnect, hk, hcl]
  · simp [step, hsock, onClose, attemptReconnect, hk, hcl]
  · intro t ht
    simp only [step, ht, if_pos, onOpen]
    split <;> rfl

/-- Witness for C1 (amended): the second close after a reset (attempt
counter 1) schedules a 4000 ms delay. -/
theorem reconnect_backoff_witness :
    (step ⟨some SockState.connecting, 1, none, none, some 3, true, true, false, 4, 0⟩
        WsEvent.closeEvt).2 =
      [Effect.scheduledReconnect (min (1000 * 2 ^ (1 + 1)) 30000)]
    ∧ (step ⟨some SockState.connecting, 1, none, none, some 3, true, true, false, 4, 0⟩
        WsEvent.closeEvt).1.reconnectAttempts = 1 + 1
    ∧ (step ⟨some SockState.connecting, 1, none, none, some 3, true, true, false, 4, 0⟩
        WsEvent.closeEvt).1.reconnectTimeout = some (min (1000 * 2 ^ (1 + 1)) 30000) :=
  ⟨(reconnect_backoff ⟨some SockState.connecting, 1, none, none, some 3, true, true, false, 4, 0⟩
      1 (by decide) (by decide) (by decide)).1,
   (reconnect_backoff ⟨some SockState.connecting, 1, none, none, some 3, true, true, false, 4, 0⟩
      1 (by decide) (by decide) (by decide)).2.1,
   (reconnect_backoff ⟨some SockState.connecting, 1, none, none, some 3, true, true, false, 4, 0⟩
      1 (by decide) (by decide) (by decide)).2.2.1⟩

theorem connectFn_attempts (s : WSState) (store : Option StoredWallet) :
    (connectFn s store).1.reconnectAttempts = s.reconnectAttempts := by
  unfold connectFn
  split
  · rfl
  · split
    · rfl
    · split
      · rfl
      · split <;> rfl

theorem step_attempts_le (s : WSState) (e : WsEvent)
    (h : s.reconnectAttempts ≤ maxReconnectAttempts) :
    (step s e).1.reconnectAttempts ≤ maxReconnectAttempts := by
  cases e with
  | connectCall store =>
      show (connectFn s store).1.reconnectAttempts ≤ maxReconnectAttempts
      rw [connectFn_attempts]
      exact h
  | openEvt =>
      by_cases hc : s.socket = some SockState.connecting
      · simp only [step, hc, if_pos, onOpen]
        split <;> simp [maxReconnectAttempts]
      · simp [step, hc, h]
  | closeEvt =>
      by_cases hc : s.socket.isSome
      · simp only [step, hc, if_pos, onClose]
        by_cases hl : s.reconnectAttempts < maxReconnectAttempts
        · simp only [hl, if_pos, attemptReconnect]
          omega
        · rw [if_neg hl]
          split <;> exact h
      · simp [step, hc, h]
  | staleCloseEvt =>
      by_cases hc : 0 < s.staleClosers
      · simp only [step, hc, if_pos, onStaleClose, onClose]
        by_cases hl : s.reconnectAttempts < maxReconnectAttempts
        · simp only [hl, if_pos, attemptReconnect]
          omega
        · rw [if_neg hl]
          split <;> exact h
      · simp [step, hc, h]
  | errorEvt =>
      by_cases hc : s.socket.isSome
      · simp only [step, hc, if_pos, onError]
        split <;> exact h
      · simp [step, hc, h]
  | refreshResolved store =>
      simp only [step, onRefreshResolved]
      split
      · rw [connectFn_attempts]
        exact h
      · exact h
  | refreshRejected m =>
      simp only [step, onRefreshRejected]
      split
      · split <;> exact h
      · exact h
  | reconnectTimerFire store =>
      by_cases hc : s.reconnectTimeout.isSome
      · simp only [step, hc, if_pos, onReconnectTimer]
        rw [connectFn_attempts]
        exact h
      · simp [step, hc, h]
  | pingTimerFire =>
      by_cases hc : s.pingInterval.isSome
      · simp only [step, hc, if_pos, onPingTimer]
        split <;> exact h
      · simp [step, hc, h]
  | disconnectCall => exact h

theorem runWS_attempts_le (es : List WsEvent) :
    ∀ s : WSState, s.reconnectAttempts ≤ maxReconnectAttempts →
      (runWS s es).reconnectAttempts ≤ maxReconnectAttempts := by
  induction es with
  | nil => intro s h; exact h
  | cons e es ih =>
      intro s h
      exact ih (step s e).1 (step_attempts_le s e h)

/-- C8: the attempt counter of any reachable service state never exceeds the
default cap of 5; a close can only schedule a reconnect while the
counter is below the cap; and once the counter sits at the cap, a
further close schedules nothing, leaves the reconnect timer untouched
and rejects the pending `connect()` promise with the
maximum-reconnection-attempts error. -/
theorem max_reconnect_cap (s : WSState) (hs : ReachableWS s) :
    s.reconnectAttempts ≤ maxReconnectAttempts
    ∧ (∀ d : Nat, Effect.scheduledReconnect d ∈ (step s WsEvent.closeEvt).2 →
        s.reconnectAttempts < maxReconnectAttempts)
    ∧ (s.reconnectAttempts = maxReconnectAttempts → s.socket.isSome = true →
        s.hasReject = true →
        (step s WsEvent.closeEvt).2 =
          [Effect.rejectedPromise "Maximum reconnection attempts reached"]
        ∧ (step s WsEvent.closeEvt).1.reconnectTimeout = s.reconnectTimeout) := by
  obtain ⟨es, rfl⟩ := hs
  refine ⟨runWS_attempts_le es initWS (by decide), ?_, ?_⟩
  · intro d hd
    set t := runWS initWS es with ht
    by_cases hc : t.socket.isSome
    · simp only [step, hc, if_pos, onClose] at hd
      by_cases hl : t.reconnectAttempts < maxReconnectAttempts
      · exact hl
      · exfalso
        rw [if_neg hl] at hd
        split at hd <;> simp at hd
    · simp [step, hc] at hd
  · intro hmax hsock hrej
    set t := runWS initWS es with ht
    have hl : ¬ t.reconnectAttempts < maxReconnectAttempts := by omega
    constructor
    · simp [step, hsock, onClose, hl, hrej]
    · simp [step, hsock, onClose, hl, hrej]

/-- Witness for C8: after five failed attempts the service sits at the cap
with a pending promise; the next close rejects it with the
maximum-attempts error. -/
theorem max_reconnect_cap_witness :
    (step (runWS initWS capTrace) WsEvent.closeEvt).2 =
      [Effect.rejectedPromise "Maximum reconnection attempts reached"]
    ∧ (runWS initWS capTrace).reconnectAttempts ≤ maxReconnectAttempts :=
  ⟨((max_reconnect_cap (runWS initWS capTrace) ⟨capTrace, rfl⟩).2.2
      (by decide) (by decide) (by decide)).1,
   (max_reconnect_cap (runWS initWS capTrace) ⟨capTrace, rfl⟩).1⟩

theorem connectFn_pingInv (s : WSState) (store : Option StoredWallet)
    (h : ∀ p, s.pingInterval = some p → p = 30000 ∧ s.socket = some SockState.opened) :
    ∀ p, (connectFn s store).1.pingInterval = some p →
      p = 30000 ∧ (connectFn s store).1.socket = some SockState.opened := by
  unfold connectFn
  split
  · exact h
  · rename_i hne
    split
    · exact h
    · split
      · exact h
      · split
        · exact h
        · intro p hp
          exact absurd (h p hp).2 hne

theorem step_pingInv (s : WSState) (e : WsEvent)
    (h : ∀ p, s.pingInterval = some p → p = 30000 ∧ s.socket = some SockState.opened) :
    ∀ p, (step s e).1.pingInterval = some p →
      p = 30000 ∧ (step s e).1.socket = some SockState.opened := by
  cases e with
  | connectCall store => exact connectFn_pingInv s store h
  | openEvt =>
      by_cases hc : s.socket = some SockState.connecting
      · simp only [step, hc, if_pos, onOpen]
        split <;>
          · intro p hp
            injection hp with h1
            exact ⟨h1.symm, rfl⟩
      · rw [step, if_neg hc]
        exact h
  | closeEvt =>
      by_cases hc : s.socket.isSome
      · simp only [step, hc, if_pos, onClose, attemptReconnect]
        split
        · intro p hp
          nomatch hp
        · split <;>
            · intro p hp
              nomatch hp
      · rw [step, if_neg (by simp [hc])]
        exact h
  | staleCloseEvt =>
      by_cases hc : 0 < s.staleClosers
      · simp only [step, hc, if_pos, onStaleClose, onClose, attemptReconnect]
        split
        · intro p hp
          nomatch hp
        · split <;>
            · intro p hp
              nomatch hp
      · rw [step, if_neg hc]
        exact h
  | errorEvt =>
      by_cases hc : s.socket.isSome
      · simp only [step, hc, if_pos, onError]
        split <;> exact h
      · rw [step, if_neg (by simp [hc])]
        exact h
  | refreshResolved store =>
      simp only [step, onRefreshResolved]
      split
      · exact connectFn_pingInv _ store (fun p hp => nomatch hp)
      · exact h
  | refreshRejected m =>
      simp only [step, onRefreshRejected]
      split
      · split <;> exact h
      · exact h
  | reconnectTimerFire store =>
      by_cases hc : s.reconnectTimeout.isSome
      · simp only [step, hc, if_pos, onReconnectTimer]
        exact connectFn_pingInv _ store h
      · rw [step, if_neg (by simp [hc])]
        exact h
  | pingTimerFire =>
      by_cases hc : s.pingInterval.isSome
      · simp only [step, hc, if_pos, onPingTimer]
        split <;> exact h
      · rw [step, if_neg (by simp [hc])]
        exact h
  | disconnectCall =>
      intro p hp
      nomatch hp

theorem runWS_pingInv (es : List WsEvent) :
    ∀ s : WSState,
      (∀ p, s.pingInterval = some p → p = 30000 ∧ s.socket = some SockState.opened) →
      ∀ p, (runWS s es).pingInterval = some p →
        p = 30000 ∧ (runWS s es).socket = some SockState.opened := by
  induction es with
  | nil => intro s h; exact h
  | cons e es ih =>
      intro s h
      exact ih (step s e).1 (step_pingInv s e h)

/-- C6: the claim's guarantee that after an explicit `disconnect()` neither
timer remains scheduled fails on the code.  At the failing input —
`connect()`, a successful open (resetting the attempt counter to 0),
then `disconnect()` — `disconnect()` itself does clear both timers, but
its `socket.close()` leaves the closed socket's ungated `onclose` due to
fire; when that close event is delivered, the handler sees
`reconnectAttempts < maxReconnectAttempts` and calls
`attemptReconnect()`, scheduling a 2000 ms reconnect timer again: the
very timer leak the specification demands `disconnect()` prevent. -/
theorem disconnect_timer_leak :
    (runWS initWS [WsEvent.connectCall walletOK, WsEvent.openEvt,
        WsEvent.disconnectCall]).reconnectTimeout = none
    ∧ (runWS initWS [WsEvent.connectCall walletOK, WsEvent.openEvt,
        WsEvent.disconnectCall]).pingInterval = none
    ∧ (runWS initWS [WsEvent.connectCall walletOK, WsEvent.openEvt,
        WsEvent.disconnectCall]).staleClosers = 1
    ∧ (step (runWS initWS [WsEvent.connectCall walletOK, WsEvent.openEvt,
        WsEvent.disconnectCall]) WsEvent.staleCloseEvt).2 =
        [Effect.scheduledReconnect 2000]
    ∧ (runWS initWS [WsEvent.connectCall walletOK, WsEvent.openEvt,
        WsEvent.disconnectCall, WsEvent.staleCloseEvt]).reconnectTimeout =
        some 2000 := by
  decide

theorem histFold_apply (hist : List HistoryMessage) (t : Task)
    (m : String → Option Task) (k : String) :
    (hist.foldl
      (fun m2 h =>
        match historyMessageId h with
        | some mid => mapInsert m2 mid t
        | none => m2)
      m) k
    = if k ∈ hist.filterMap historyMessageId then some t else m k := by
  induction hist generalizing m with
  | nil => simp
  | cons h hs ih =>
      cases hh : historyMessageId h with
      | none =>
          simp only [List.foldl_cons, List.filterMap_cons, hh]
          exact ih m
      | some mid =>
          simp only [List.foldl_cons, List.filterMap_cons, hh]
          rw [ih]
          by_cases hk : k ∈ hs.filterMap historyMessageId
          · simp [hk]
          · by_cases hkm : k = mid
            · simp [hk, hkm, mapInsert]
            · simp [hk, hkm, mapInsert]

theorem taskMapStep_apply (m : String → Option Task) (t : Task) (k : String) :
    taskMapStep m t k = if k ∈ embeddedIds t then some t else m k := by
  unfold taskMapStep embeddedIds
  cases hs : statusMessageId t with
  | some mid =>
      by_cases hk : k = mid
      · simp [hk, mapInsert]
      · simp [hk, mapInsert]
  | none =>
      cases hh : t.history with
      | none => simp
      | some hist => exact histFold_apply hist t m k

theorem updateMessageTaskMapping_append (l : List Task) (t : Task) (k : String) :
    updateMessageTaskMapping (l ++ [t]) k =
      if k ∈ embeddedIds t then some t else updateMessageTaskMapping l k := by
  unfold updateMessageTaskMapping
  rw [List.foldl_append]
  simp only [List.foldl_cons, List.foldl_nil]
  exact taskMapStep_apply _ t k

theorem findIdx?_lt_length {α : Type} (l : List α) (p : α → Bool) (i : Nat)
    (h : l.findIdx? p = some i) : i < l.length := by
  exact ((List.findIdx?_eq_some_iff_findIdx_eq).mp h).1

/-- C4: for a `task_update` event on the current conversation — when the
event carries a truthy `message_id`, the upserted task is bound to that
id directly in `messageTasks`; when it does not, the handler falls back
to the full `updateMessageTaskMapping` rescan, under which a freshly
appended task ends up associated to every `message_id` embedded in its
own status-message metadata or (failing that) its history entries. -/
theorem task_update_association (s : ChatState) (e : TaskUpdateEvent)
    (hconv : some e.conversation_id = s.currentConversationId) :
    (∀ mid, strTruthy e.message_id = some mid →
      (handleTaskUpdate s e).messageTasks mid =
          (handleTaskUpdate s e).tasks[upsertIndex s e]?
        ∧ ((handleTaskUpdate s e).tasks[upsertIndex s e]?).isSome = true)
    ∧ (strTruthy e.message_id = none →
      (handleTaskUpdate s e).messageTasks =
        updateMessageTaskMapping (handleTaskUpdate s e).tasks)
    ∧ (strTruthy e.message_id = none →
      s.tasks.findIdx? (fun t => t.id = e.task.id) = none →
      ∀ mid, mid ∈ embeddedIds (newTaskOfEvent e) →
        (handleTaskUpdate s e).messageTasks mid = some (newTaskOfEvent e)) := by
  have hcpos : ¬ (some e.conversation_id ≠ s.currentConversationId) :=
    fun hne => hne hconv
  refine ⟨?_, ?_, ?_⟩
  · intro mid hmid
    unfold handleTaskUpdate upsertIndex
    rw [if_neg hcpos]
    cases hidx : s.tasks.findIdx? (fun t => t.id = e.task.id) with
    | some i =>
        have hlt : i < s.tasks.length := findIdx?_lt_length _ _ i hidx
        have hget : s.tasks[i]? = some (s.tasks[i]) := List.getElem?_eq_getElem hlt
        simp only [hidx, hget, hmid]
        have hset : (s.tasks.set i (mergeTask s.tasks[i] e))[i]? =
            some (mergeTask s.tasks[i] e) :=
          List.getElem?_set_eq_of_lt _ hlt
        simp only [hset, mapInsert, if_pos rfl]
        exact ⟨rfl, rfl⟩
    | none =>
        have hcat : (s.tasks ++ [newTaskOfEvent e])[s.tasks.length]? =
            some (newTaskOfEvent e) := List.getElem?_concat_length _ _
        have hlen : (s.tasks ++ [newTaskOfEvent e]).length - 1 = s.tasks.length := by
          simp
        simp only [hidx, hmid, hlen, hcat, mapInsert, if_pos rfl]
        exact ⟨rfl, rfl⟩
  · intro hmid
    unfold handleTaskUpdate
    rw [if_neg hcpos]
    cases hidx : s.tasks.findIdx? (fun t => t.id = e.task.id) with
    | some i =>
        cases hget : s.tasks[i]? with
        | some old => simp only [hidx, hget, hmid]
        | none => simp only [hidx, hget, hmid]
    | none => simp only [hidx, hmid]
  · intro hmid hfresh mid hmem
    unfold handleTaskUpdate
    rw [if_neg hcpos]
    simp only [hfresh, hmid]
    show updateMessageTaskMapping (s.tasks ++ [newTaskOfEvent e]) mid =
      some (newTaskOfEvent e)
    rw [updateMessageTaskMapping_append]
    rw [if_pos hmem]

/-- Witness for C4: a fresh task carrying an explicit `message_id` is bound
directly to that id. -/
theorem task_update_association_witness :
    ((handleTaskUpdate ⟨some "conv", [], [], fun _ => none, fun _ => false⟩
        ⟨"conv", some "m1", ⟨"t1", "sess", ⟨"working", none⟩, none, none⟩⟩).messageTasks "m1" =
      (handleTaskUpdate ⟨some "conv", [], [], fun _ => none, fun _ => false⟩
        ⟨"conv", some "m1", ⟨"t1", "sess", ⟨"working", none⟩, none, none⟩⟩).tasks[
          upsertIndex ⟨some "conv", [], [], fun _ => none, fun _ => false⟩
            ⟨"conv", some "m1", ⟨"t1", "sess", ⟨"working", none⟩, none, none⟩⟩]?)
    ∧ (((handleTaskUpdate ⟨some "conv", [], [], fun _ => none, fun _ => false⟩
        ⟨"conv", some "m1", ⟨"t1", "sess", ⟨"working", none⟩, none, none⟩⟩).tasks[
          upsertIndex ⟨some "conv", [], [], fun _ => none, fun _ => false⟩
            ⟨"conv", some "m1", ⟨"t1", "sess", ⟨"working", none⟩, none, none⟩⟩]?).isSome
        = true) :=
  (task_update_association ⟨some "conv", [], [], fun _ => none, fun _ => false⟩
      ⟨"conv", some "m1", ⟨"t1", "sess", ⟨"working", none⟩, none, none⟩⟩ rfl).1
    "m1" (by decide)

theorem lastUserMessageId_append_nonuser (l : List ChatMessage) (nm : ChatMessage)
    (h : ¬ nm.role = "user") :
    lastUserMessageId (l ++ [nm]) = lastUserMessageId l := by
  unfold lastUserMessageId
  rw [List.reverse_append]
  simp only [List.reverse_singleton, List.singleton_append]
  rw [List.find?_cons_of_neg]
  simp [h]

/-- C5 counterexample: with two user messages where the most recent (`B`)
already has a response and the earlier (`A`) is still awaiting one, an
incoming agent message leaves `A` unresolved — the handler re-marks the
last user message `B` instead of resolving the most recent
awaiting-response user message `A`, refuting the claim. -/
theorem new_message_awaiting_claim_false :
    awaitingState.messageResponses "A" = false
    ∧ awaitingState.messageResponses "B" = true
    ∧ msgUserA.role = "user"
    ∧ msgUserB.role = "user"
    ∧ agentEvt.message.role ≠ "user"
    ∧ (handleNewMessage awaitingState agentEvt).messageResponses "A" = false
    ∧ (handleNewMessage awaitingState agentEvt).messageResponses "B" = true := by
  decide

/-- C5 (amended): on a `new_message` for the current conversation whose role
is not `user` and whose id is not already present, the handler appends
the converted message and marks the most recent user message carrying a
`message_id` as having received a response — regardless of whether that
message was still awaiting one — leaving every other response flag
unchanged. -/
theorem new_message_marks_last_user (s : ChatState) (e : NewMessageEvent)
    (uid : String)
    (hconv : some e.conversation_id = s.currentConversationId)
    (hrole : ¬ e.message.role = "user")
    (hnew : s.messages.any
      (fun m =>
        match m.metadata with
        | some md => md.message_id = some e.message.id
        | none => false) = false)
    (hlast : lastUserMessageId s.messages = some uid) :
    (handleNewMessage s e).messages = s.messages ++ [convertNewMessage e]
    ∧ (handleNewMessage s e).messageResponses uid = true
    ∧ (∀ k, ¬ k = uid →
        (handleNewMessage s e).messageResponses k = s.messageResponses k) := by
  have hcpos : ¬ (some e.conversation_id ≠ s.currentConversationId) :=
    fun hne => hne hconv
  have hroleNm : ¬ (convertNewMessage e).role = "user" := hrole
  have hlast2 : lastUserMessageId (s.messages ++ [convertNewMessage e]) = some uid := by
    rw [lastUserMessageId_append_nonuser _ _ hroleNm]
    exact hlast
  unfold handleNewMessage
  rw [if_neg hcpos, hnew]
  simp only [Bool.false_eq_true, if_false]
  refine ⟨trivial, ?_, ?_⟩
  · show updateAgentResponseReceived (s.messages ++ [convertNewMessage e])
      s.messageResponses (convertNewMessage e) uid = true
    unfold updateAgentResponseReceived
    rw [if_pos hroleNm, hlast2]
    simp
  · intro k hk
    show updateAgentResponseReceived (s.messages ++ [convertNewMessage e])
      s.messageResponses (convertNewMessage e) k = s.messageResponses k
    unfold updateAgentResponseReceived
    rw [if_pos hroleNm, hlast2]
    simp [hk]

/-- Witness for C5 (amended): a single awaiting user message `A` is marked
responded when an agent message arrives. -/
theorem new_message_marks_last_user_witness :
    (handleNewMessage awaitingSingle agentEvt).messages =
      awaitingSingle.messages ++ [convertNewMessage agentEvt]
    ∧ (handleNewMessage awaitingSingle agentEvt).messageResponses "A" = true :=
  ⟨(new_message_marks_last_user awaitingSingle agentEvt "A"
      rfl (by decide) (by decide) (by decide)).1,
   (new_message_marks_last_user awaitingSingle agentEvt "A"
      rfl (by decide) (by decide) (by decide)).2.1⟩

end A2A
